import Mathlib

/-!
Verification of the Mixtli Transfer gateway (presign broker, quota resolver,
key deriver, multipart coordinator, bundle assembler) against its code.

The embedding translates the JavaScript handlers into pure Lean functions:
machine numbers become Nat or Int, JSON request bodies become explicit
arguments, the storage service (S3/R2) becomes either an explicit map from
keys to optional contents or an explicit result argument, and every handler
returns a value describing the HTTP response it would produce.
-/

namespace Mixtli

/-! ## Key Deriver — safeKeyFrom (server_bundle.js lines 86-94, server_multipart lines 80-88)

JavaScript source:
  const clean = (filename || 'file').replace(/[^a-zA-Z0-9._-]+/g, '-').slice(-120) || 'file';
  return `uploads/.../uuid-clean`  (date parts and uuid are time/randomness, passed as arguments here)
-/

/-- Characters matched by the allow-list `[a-zA-Z0-9._-]` of the sanitizing regex. -/
def isAllowedChar (c : Char) : Bool :=
  c.isAlphanum || c == '.' || c == '_' || c == '-'

/-- One pass of `replace(/[^a-zA-Z0-9._-]+/g, '-')`: each maximal run of
disallowed characters becomes a single dash.  The flag records whether we are
inside such a run. -/
def sanitizeAux : Bool → List Char → List Char
  | _, [] => []
  | inRun, c :: cs =>
    if isAllowedChar c then c :: sanitizeAux false cs
    else if inRun then sanitizeAux true cs
    else '-' :: sanitizeAux true cs

def sanitize (l : List Char) : List Char := sanitizeAux false l

/-- JavaScript `s.slice(-n)`: the last `n` characters (the whole string when shorter). -/
def sliceLast (n : Nat) (l : List Char) : List Char := l.drop (l.length - n)

/-- The sanitized tail of the derived key:
`(filename || 'file').replace(/[^a-zA-Z0-9._-]+/g, '-').slice(-120) || 'file'`. -/
def cleanName (filename : String) : List Char :=
  let base := if filename = "" then "file".data else filename.data
  let s := sliceLast 120 (sanitize base)
  if s = [] then "file".data else s

/-- `safeKeyFrom`: the template literal `uploads/${yyyy}/${mm}/${dd}/${uuid}-${clean}`,
with the date components and the random uuid supplied as arguments. -/
def safeKeyFrom (yyyy mm dd uuid : String) (filename : String) : String :=
  "uploads/" ++ (yyyy ++ "/" ++ mm ++ "/" ++ dd ++ "/" ++ uuid ++ "-" ++ String.mk (cleanName filename))

/-! ## Quota Resolver — plan limits (server_multipart lines 62-77, server_bundle lines 68-83) -/

/-- The three configured byte ceilings (from PLAN_LIMITS_JSON or the FREE_/PRO_/PROMAX_ env vars). -/
structure PlanLimits where
  free : Nat
  pro : Nat
  promax : Nat
deriving DecidableEq

/-- JavaScript `String.prototype.toLowerCase` restricted to the ASCII mapping
used by this code (plan names are ASCII). -/
def jsToLower (s : String) : String := String.mk (s.data.map Char.toLower)

/-- The closed plan enumeration `['free','pro','promax']` tested by `includes`. -/
def planNames : List String := ["free", "pro", "promax"]

/-- `req.headers['x-mixtli-plan'] || req.query.plan || DEFAULT_PLAN`: the first
truthy plan source, collapsed to one optional value (an empty string is falsy). -/
def requestPlanString (defaultPlan : String) (hp : Option String) : String :=
  match hp with
  | some s => if s = "" then defaultPlan else s
  | none => defaultPlan

/-- `getPlanFromReq`: with the plan header disabled the default plan is used;
otherwise the lowercased request value is accepted only when it is one of the
three known plans, with any other value falling back to DEFAULT_PLAN. -/
def getPlanFromReq (enableHeader : Bool) (defaultPlan : String) (hp : Option String) : String :=
  if enableHeader = false then defaultPlan
  else
    let p := jsToLower (requestPlanString defaultPlan hp)
    if planNames.contains p then p else defaultPlan

/-- `PLAN_LIMITS[plan] ?? PLAN_LIMITS.free`: object lookup on the three keys,
falling back to the free limit when the key is absent. -/
def lookupLimit (L : PlanLimits) (p : String) : Nat :=
  if p = "free" then L.free
  else if p = "pro" then L.pro
  else if p = "promax" then L.promax
  else L.free

/-- `getPlanLimit(req)`: resolve the plan, then look up its byte ceiling. -/
def getPlanLimit (L : PlanLimits) (enableHeader : Bool) (defaultPlan : String)
    (hp : Option String) : Nat :=
  lookupLimit L (getPlanFromReq enableHeader defaultPlan hp)

/-! ## Handler results -/

/-- A JSON response: either a 200 payload or `res.status(status).json({error: message})`. -/
inductive HResult (α : Type) where
  | ok (value : α)
  | err (status : Nat) (message : String)
deriving DecidableEq

/-- A storage-side (S3/R2) error as the handlers observe it: the SDK error
name/code together with its message. -/
structure S3Err where
  code : String
  message : String
deriving DecidableEq

/-- `String(err)` as the v3 handlers return it for an SDK error object. -/
def s3ErrString (e : S3Err) : String := e.code ++ ": " ++ e.message

/-! ## Presign Broker — POST /api/presign (server_multipart lines 124-139, server_bundle lines 110-125) -/

/-- Successful presign payload `{key, putUrl, expiresIn}`. -/
structure PresignOk where
  key : String
  putUrl : String
  expiresIn : Nat
deriving DecidableEq

/-- POST /api/presign.  Zod validation (filename and contentType non-empty,
size a positive integer at most 400 GiB) happens first and fails the request
with 400; then the plan quota check rejects declared sizes above the plan
limit with 400; otherwise a key is derived and the signed PUT URL (produced by
the external signer, passed as the argument sign) is returned. -/
def presignHandler (L : PlanLimits) (enableHeader : Bool) (defaultPlan : String)
    (hp : Option String) (yyyy mm dd uuid : String)
    (filename : String) (size : Nat) (contentType : String) (ttl : Nat)
    (sign : String → String → String) : HResult PresignOk :=
  if filename = "" ∨ size = 0 ∨ 400 * 1024 * 1024 * 1024 < size ∨ contentType = "" then
    .err 400 "invalid body"
  else if size > getPlanLimit L enableHeader defaultPlan hp then
    .err 400 "Archivo excede el limite del plan"
  else
    .ok ⟨safeKeyFrom yyyy mm dd uuid filename,
         sign (safeKeyFrom yyyy mm dd uuid filename) contentType, ttl⟩

/-! ## Multipart Coordinator (server_multipart lines 154-219) -/

/-- Successful create payload `{uploadId, key, partSize}`. -/
structure MpCreateResponse where
  uploadId : String
  key : String
  partSize : Nat
deriving DecidableEq

/-- `parsed.partSize || DEFAULT_PART_SIZE` (0 and undefined are falsy). -/
def mpPartSizeOf (partSizeReq : Option Nat) (defaultPartSize : Nat) : Nat :=
  match partSizeReq with
  | some n => if n = 0 then defaultPartSize else n
  | none => defaultPartSize

/-- POST /api/multipart/create.  Feature flag, zod validation (filename
non-empty, size a positive integer at most 5 TiB, optional positive partSize),
quota check, key derivation, then the storage CreateMultipartUpload call whose
outcome is the argument storageCreate (keyed by the derived key); its UploadId
is returned verbatim as the client-visible uploadId. -/
def multipartCreateHandler (enableMultipart : Bool) (L : PlanLimits) (enableHeader : Bool)
    (defaultPlan : String) (hp : Option String) (yyyy mm dd uuid : String)
    (filename : String) (size : Nat) (partSizeReq : Option Nat) (defaultPartSize : Nat)
    (storageCreate : String → Except S3Err String) : HResult MpCreateResponse :=
  if enableMultipart = false then .err 403 "Multipart deshabilitado"
  else if filename = "" ∨ size = 0 ∨ 5 * 1024 * 1024 * 1024 * 1024 < size ∨ partSizeReq = some 0 then
    .err 400 "invalid body"
  else if size > getPlanLimit L enableHeader defaultPlan hp then
    .err 400 "Archivo excede el limite del plan"
  else
    match storageCreate (safeKeyFrom yyyy mm dd uuid filename) with
    | .ok uploadId =>
      .ok ⟨uploadId, safeKeyFrom yyyy mm dd uuid filename, mpPartSizeOf partSizeReq defaultPartSize⟩
    | .error e => .err 400 (s3ErrString e)

/-- Response of POST /api/multipart/part-url. -/
inductive PartUrlResult where
  | url (u : String)
  | err (status : Nat) (message : String)
deriving DecidableEq

/-- POST /api/multipart/part-url.  Zod validation (uploadId and key non-empty,
partNumber a positive integer at most 10000) rejects with 400 before the
UploadPartCommand is even built; on valid input the externally signed URL
(argument sign) is returned. -/
def multipartPartUrlHandler (enableMultipart : Bool) (uploadId key : String) (partNumber : Int)
    (sign : String → String → Int → String) : PartUrlResult :=
  if enableMultipart = false then .err 403 "Multipart deshabilitado"
  else if uploadId = "" ∨ key = "" ∨ partNumber < 1 ∨ 10000 < partNumber then
    .err 400 "invalid body"
  else .url (sign uploadId key partNumber)

/-- One `{ETag, PartNumber}` pair of the completion request. -/
structure MpPart where
  ETag : String
  PartNumber : Nat
deriving DecidableEq

/-- Successful completion payload `{ok, key, location}`. -/
structure CompleteOk where
  key : String
  location : Option String
deriving DecidableEq

/-- POST /api/multipart/complete.  Zod validation (uploadId and key non-empty,
at least one part, each with non-empty ETag and PartNumber in 1..10000), then
the parts are mapped field-by-field — `p => ({ETag: p.ETag, PartNumber:
p.PartNumber})` — and handed to the storage CompleteMultipartUpload call
(argument storageComplete); the handler adds no check of its own. -/
def multipartCompleteHandler (enableMultipart : Bool) (uploadId key : String)
    (parts : List MpPart)
    (storageComplete : String → String → List MpPart → Except S3Err (Option String)) :
    HResult CompleteOk :=
  if enableMultipart = false then .err 403 "Multipart deshabilitado"
  else if uploadId = "" ∨ key = "" ∨ parts = []
      ∨ ¬ (∀ p ∈ parts, p.ETag ≠ "" ∧ 1 ≤ p.PartNumber ∧ p.PartNumber ≤ 10000) then
    .err 400 "invalid body"
  else
    match storageComplete uploadId key (parts.map (fun p => ⟨p.ETag, p.PartNumber⟩)) with
    | .ok loc => .ok ⟨key, loc⟩
    | .error e => .err 400 (s3ErrString e)

/-- Modelled from the spec: the storage boundary operation
`abortMultipartUpload(uploadId, key) -> void` of section 6, which lists no
failure mode (unlike getObjectStream), and section 4.4, which calls abort a
no-op when the session is already absent.  The storage side is out of scope of
the repository, so it is embedded as the total state transition that discards
the open upload when present and does nothing otherwise.  The state is the set
of open multipart upload ids on the storage side. -/
def abortMultipartUpload (openUploads : List String) (uploadId : String) : List String :=
  openUploads.filter (fun u => u ≠ uploadId)

/-- POST /api/multipart/abort.  Feature flag, zod validation (uploadId and key
non-empty), then the storage abort call; the handler answers `{ok:true}`
whenever that call returns.  Returns the response together with the storage
state after the call. -/
def multipartAbortHandler (enableMultipart : Bool) (uploadId key : String)
    (openUploads : List String) : HResult Bool × List String :=
  if enableMultipart = false then (.err 403 "Multipart deshabilitado", openUploads)
  else if uploadId = "" ∨ key = "" then (.err 400 "invalid body", openUploads)
  else (.ok true, abortMultipartUpload openUploads uploadId)

/-! ## Error mapping — mapS3Error (server.js lines 119-135) -/

/-- The response bodies mapS3Error can produce.  The first three are the
gateway taxonomy; s3Error is the fallback that carries the provider fields. -/
inductive ErrBody where
  | unauthorized (hint : String)
  | forbidden (hint : String)
  | noSuchBucket (hint : String)
  | s3Error (code : String) (message : String)
deriving DecidableEq

/-- True exactly on the taxonomy constructors, false on the raw pass-through. -/
def ErrBody.inTaxonomy : ErrBody → Bool
  | .s3Error _ _ => false
  | _ => true

/-- `mapS3Error(err)`: `err.code || err.name` is the code field here.  The
recognized codes map to 401/403/404 taxonomy bodies; everything else falls
through to `{status: 500, body: {error: 's3_error', code, message}}`. -/
def mapS3Error (bucket : String) (e : S3Err) : Nat × ErrBody :=
  if e.code = "CredentialsError" ∨ e.code = "InvalidAccessKeyId" ∨ e.code = "ExpiredToken" then
    (401, .unauthorized "R2 API Token incorrecto")
  else if e.code = "SignatureDoesNotMatch" ∨ e.code = "AccessDenied" then
    (401, .unauthorized "Endpoint sin bucket, region=auto, path-style=true")
  else if e.code = "Forbidden" then
    (403, .forbidden "Faltan permisos")
  else if e.code = "NoSuchBucket" then
    (404, .noSuchBucket ("Bucket " ++ bucket ++ " no existe o esta mal escrito"))
  else (500, .s3Error e.code e.message)

/-- The storage error codes that mapS3Error recognizes and translates. -/
def recognizedS3Code (c : String) : Bool :=
  c == "CredentialsError" || c == "InvalidAccessKeyId" || c == "ExpiredToken" ||
  c == "SignatureDoesNotMatch" || c == "AccessDenied" || c == "Forbidden" || c == "NoSuchBucket"

/-! ## Transfers — server.js manifest, file and zip endpoints (lines 264-345) -/

/-- `safeName` of server.js: each character of the class `[\\#?<>:*|"\x00-\x1F]`
is replaced by an underscore (one by one, no run collapsing; the forward slash
is not in the class). -/
def safeName (s : String) : String :=
  String.mk (s.data.map (fun c =>
    if c = '\\' ∨ c = '#' ∨ c = '?' ∨ c = '<' ∨ c = '>' ∨ c = ':' ∨ c = '*' ∨ c = '|'
        ∨ c = '"' ∨ c.toNat < 32 then '_' else c))

/-- One entry of a transfer manifest file list. -/
structure TFile where
  name : String
  size : Nat
  type : String
deriving DecidableEq

/-- The stored `transfers/<id>/manifest.json`, restricted to the fields the
download endpoints read: the expiry instant (milliseconds since epoch, as
`new Date(...)` comparison works on) and the file list. -/
structure TManifest where
  expiresAt : Nat
  files : List TFile
deriving DecidableEq

/-- The storage bucket as the transfer endpoints see it: object bodies by key,
and the parsed manifest object by its key (headObject answers present exactly
when the map does). -/
structure Store where
  objects : String → Option String
  manifests : String → Option TManifest

/-- Response of GET /api/transfers/:id — 404, 410 expired, or the manifest. -/
inductive ManResult where
  | notFound
  | expired
  | ok (m : TManifest)
deriving DecidableEq

def ManResult.httpStatus : ManResult → Nat
  | .notFound => 404
  | .expired => 410
  | .ok _ => 200

/-- Response of GET /api/file/:id/:name — 404, 410 expired, or the streamed
object body (the Content-Type and Content-Disposition headers are projected
away). -/
inductive FileResult where
  | notFound
  | expired
  | stream (body : String)
deriving DecidableEq

def FileResult.httpStatus : FileResult → Nat
  | .notFound => 404
  | .expired => 410
  | .stream _ => 200

/-- Response of GET /api/transfers/:id/download.zip — 404, 410 expired, or the
streamed archive: its members in order (entry name and body) and whether
finalize completed. -/
inductive ZipResult where
  | notFound
  | expired
  | archive (members : List (String × String)) (completed : Bool)
deriving DecidableEq

def ZipResult.httpStatus : ZipResult → Nat
  | .notFound => 404
  | .expired => 410
  | .archive _ _ => 200

/-- The manifest key `transfers/${id}/manifest.json`. -/
def manifestKey (id : String) : String := "transfers/" ++ id ++ "/manifest.json"

/-- The object key `transfers/${id}/${safeName(name)}`. -/
def zipKey (id name : String) : String := "transfers/" ++ id ++ "/" ++ safeName name

/-- GET /api/transfers/:id: headObject on the manifest key (404 when absent),
fetch and parse the manifest, 410 when `new Date(expiresAt) < new Date()`,
otherwise the manifest itself. -/
def getTransferHandler (st : Store) (now : Nat) (id : String) : ManResult :=
  match st.manifests (manifestKey id) with
  | none => .notFound
  | some man => if man.expiresAt < now then .expired else .ok man

/-- GET /api/file/:id/:name: manifest head (404), expiry check (410), object
head on the derived key (404), then the object body is piped to the response. -/
def getFileHandler (st : Store) (now : Nat) (id name : String) : FileResult :=
  match st.manifests (manifestKey id) with
  | none => .notFound
  | some man =>
    if man.expiresAt < now then .expired
    else
      match st.objects (zipKey id name) with
      | none => .notFound
      | some body => .stream body

/-- The loop of the zip endpoint: for each manifest file, headObject on its
key; an absent object is skipped with `continue`, a present one is appended to
the archive under the original file name. -/
def zipMembers (st : Store) (id : String) : List TFile → List (String × String)
  | [] => []
  | f :: rest =>
    match st.objects (zipKey id f.name) with
    | none => zipMembers st id rest
    | some body => (f.name, body) :: zipMembers st id rest

/-- GET /api/transfers/:id/download.zip: manifest head (404), expiry check
(410), then headers are set and the member loop runs; absent members are
skipped and `archive.finalize()` always completes the response. -/
def downloadZipHandler (st : Store) (now : Nat) (id : String) : ZipResult :=
  match st.manifests (manifestKey id) with
  | none => .notFound
  | some man =>
    if man.expiresAt < now then .expired
    else .archive (zipMembers st id man.files) true

/-! ## Bundle Assembler — GET /api/bundle (server_bundle.js lines 141-176) -/

/-- JavaScript `key.split('/')`: split at every slash, keeping empty segments. -/
def splitSlash : List Char → List (List Char)
  | [] => [[]]
  | c :: cs =>
    let r := splitSlash cs
    if c = '/' then [] :: r
    else
      match r with
      | [] => [[c]]
      | h :: t => (c :: h) :: t

/-- `key.split('/').pop()`: the final path segment of a key. -/
def lastSegment (k : String) : String :=
  String.mk ((splitSlash k.data).getLastD [])

/-- One `{key, name?}` entry of a bundle manifest. -/
structure BItem where
  key : String
  name : Option String
deriving DecidableEq

/-- A parsed bundle manifest `{name?, items}`. -/
structure BManifest where
  name : Option String
  items : List BItem
deriving DecidableEq

/-- `(it.name ? String(it.name) : key.split('/').pop()) || 'file'` — an absent
or empty display name falls back to the final key segment, and an empty result
falls back to the name file. -/
def memberName (it : BItem) : String :=
  let n :=
    match it.name with
    | some s => if s = "" then lastSegment it.key else s
    | none => lastSegment it.key
  if n = "" then "file" else n

/-- `(manifest && manifest.name) ? String(manifest.name) : 'combo.zip'`. -/
def bundleZipName (m : BManifest) : String :=
  match m.name with
  | some s => if s = "" then "combo.zip" else s
  | none => "combo.zip"

/-- Response of GET /api/bundle.  clientError models a response emitted while
`res.headersSent` is still false — before any header or body byte of the
archive; archive models the streamed zip: the members appended in order and
whether the stream reached finalize (false means the response was cut short
after the listed members). -/
inductive BundleResult where
  | clientError (status : Nat) (message : String)
  | archive (zipName : String) (members : List (String × String)) (completed : Bool)
deriving DecidableEq

/-- The member loop of /api/bundle: each item is fetched with GetObject and
appended; a fetch of an absent key throws, which aborts the whole stream (the
catch cannot change anything once headers are sent), so the members appended
so far are kept and the response never completes. -/
def bundleMembers (objects : String → Option String) :
    List BItem → List (String × String) × Bool
  | [] => ([], true)
  | it :: rest =>
    match objects it.key with
    | none => ([], false)
    | some body =>
      let r := bundleMembers objects rest
      ((memberName it, body) :: r.1, r.2)

/-- GET /api/bundle?m=...  The manifest object is fetched from storage and
JSON-parsed (the argument is the parsed result; none models a failed fetch or
parse, answered 400 before headers).  An empty item list is answered 400
before headers; otherwise the zip headers are set (with the sanitized archive
name) and the member loop streams the archive. -/
def bundleHandler (objects : String → Option String) (getManifest : Option BManifest) :
    BundleResult :=
  match getManifest with
  | none => .clientError 400 "manifest fetch failed"
  | some man =>
    if man.items.length = 0 then .clientError 400 "Manifiesto vacio"
    else
      .archive (String.mk (sanitize (bundleZipName man).data))
        (bundleMembers objects man.items).1 (bundleMembers objects man.items).2

/-! ## Concrete fixtures used by witnesses and counterexamples -/

/-- A bucket holding exactly one object, uploads/a.png. -/
def c3Objects : String → Option String :=
  fun k => if k = "uploads/a.png" then some "AAA" else none

/-- First bundle manifest entry: a present key. -/
def c3Item1 : BItem := { key := "uploads/a.png", name := some "f1.png" }

/-- Second bundle manifest entry: an absent key. -/
def c3Item2 : BItem := { key := "uploads/b.png", name := some "f2.png" }

/-- A two-member bundle manifest whose second key is absent from c3Objects. -/
def c3Manifest : BManifest :=
  { name := some "combo.zip", items := [c3Item1, c3Item2] }

/-- First manifest file of the t1 transfer (its object exists). -/
def exFile1 : TFile := { name := "one.txt", size := 3, type := "text/plain" }

/-- Second manifest file of the t1 transfer (its object is absent). -/
def exFile2 : TFile := { name := "two.txt", size := 3, type := "text/plain" }

/-- The stored manifest of transfer t1, expiring at instant 1000. -/
def exManifestT1 : TManifest := { expiresAt := 1000, files := [exFile1, exFile2] }

/-- A transfer store with id t1: a manifest listing two files of which only
the first object exists. -/
def exStore : Store :=
  { objects := fun k => if k = "transfers/t1/one.txt" then some "ONE" else none,
    manifests := fun k =>
      if k = "transfers/t1/manifest.json" then some exManifestT1 else none }

/-- A storage create call that always opens upload UP-1. -/
def exStorageCreate : String → Except S3Err String := fun _ => .ok "UP-1"

/-- A storage completion call that accepts everything with a fixed location. -/
def exStorageComplete : String → String → List MpPart → Except S3Err (Option String) :=
  fun _ _ _ => .ok (some "loc-1")

/-- A signer returning a recognizable URL. -/
def exSign : String → String → String := fun k _ => "https://signed/" ++ k

/-- A part signer returning a recognizable URL. -/
def exPartSign : String → String → Int → String := fun _ _ _ => "https://signed/part"

/-- A second, different part signer, used to show storage independence. -/
def exPartSign2 : String → String → Int → String := fun _ _ _ => "https://other/part"

/-! ## Helper lemmas -/

/-- Every character the sanitizer emits is in the allow-list (the dash it
inserts for a run is itself allowed). -/
theorem sanitizeAux_all_allowed (l : List Char) :
    ∀ b, (sanitizeAux b l).all isAllowedChar = true := by
  induction l with
  | nil => intro b; rfl
  | cons c cs ih =>
    intro b
    by_cases h : isAllowedChar c = true
    · simp [sanitizeAux, h, ih false]
    · cases b
      · simp [sanitizeAux, h, ih true]
        decide
      · simp [sanitizeAux, h, ih true]

/-- An allow-listed character is neither a path separator nor a control
character. -/
theorem allowedChar_safe (c : Char) (h : isAllowedChar c = true) :
    c ≠ '/' ∧ c ≠ '\\' ∧ 32 ≤ c.toNat := by
  refine ⟨?_, ?_, ?_⟩
  · rintro rfl; exact absurd h (by decide)
  · rintro rfl; exact absurd h (by decide)
  · simp only [isAllowedChar, Char.isAlphanum, Char.isAlpha, Char.isUpper, Char.isLower,
      Char.isDigit, Bool.or_eq_true, Bool.and_eq_true, decide_eq_true_eq, beq_iff_eq,
      ge_iff_le] at h
    have hval : c.toNat = c.val.toNat := rfl
    rcases h with ((((⟨h1, _⟩ | ⟨h1, _⟩) | ⟨h1, _⟩) | rfl) | rfl) | rfl
    · have h2 : (65 : UInt32).toNat ≤ c.val.toNat := h1
      have h3 : (65 : UInt32).toNat = 65 := rfl
      omega
    · have h2 : (97 : UInt32).toNat ≤ c.val.toNat := h1
      have h3 : (97 : UInt32).toNat = 97 := rfl
      omega
    · have h2 : (48 : UInt32).toNat ≤ c.val.toNat := h1
      have h3 : (48 : UInt32).toNat = 48 := rfl
      omega
    · decide
    · decide
    · decide

theorem cleanSlice_all_allowed (base : List Char) :
    ∀ x ∈ (if sliceLast 120 (sanitize base) = [] then "file".data
           else sliceLast 120 (sanitize base)), isAllowedChar x = true := by
  intro x hx
  split at hx
  · have hm : x ∈ ['f', 'i', 'l', 'e'] := hx
    simp only [List.mem_cons, List.not_mem_nil, or_false] at hm
    rcases hm with rfl | rfl | rfl | rfl <;> decide
  · have hall := sanitizeAux_all_allowed base false
    rw [List.all_eq_true] at hall
    exact hall x (List.drop_subset _ _ hx)

theorem cleanName_all_allowed (filename : String) :
    (cleanName filename).all isAllowedChar = true := by
  rw [List.all_eq_true]
  intro x hx
  exact cleanSlice_all_allowed (if filename = "" then "file".data else filename.data) x hx

theorem cleanSlice_length_le (base : List Char) :
    (if sliceLast 120 (sanitize base) = [] then "file".data
     else sliceLast 120 (sanitize base)).length ≤ 120 := by
  split
  · decide
  · simp only [sliceLast, List.length_drop]
    omega

theorem cleanName_length_le (filename : String) : (cleanName filename).length ≤ 120 :=
  cleanSlice_length_le (if filename = "" then "file".data else filename.data)

/-! ## C2 -/

/-- C2: for every input string (arbitrary contents, including separators,
control characters and the empty string) the key derivation succeeds: the key
is the date-partitioned uploads/ path, the sanitized tail carries no path
separator, backslash or control character, its length is capped at 120, and
the empty input is replaced by the default name file. -/
theorem C2_safe_key_total (yyyy mm dd uuid filename : String) :
    (∃ rest : String, safeKeyFrom yyyy mm dd uuid filename = "uploads/" ++ rest)
    ∧ (cleanName filename).all
        (fun c => isAllowedChar c && !(c == '/') && !(c == '\\') && decide (32 ≤ c.toNat)) = true
    ∧ (cleanName filename).length ≤ 120
    ∧ cleanName "" = "file".data := by
  refine ⟨⟨_, rfl⟩, ?_, cleanName_length_le filename, rfl⟩
  have h := cleanName_all_allowed filename
  rw [List.all_eq_true] at h ⊢
  intro c hc
  have ha := h c hc
  obtain ⟨h1, h2, h3⟩ := allowedChar_safe c ha
  simp [ha, h1, h2, h3]

/-! ## C1 -/

/-- C1: for every plan source value and declared size on a schema-valid
request, the presign and multipart-create quota checks admit the request
exactly when the declared size is at most the resolved plan limit, and any
plan value whose lowercasing is outside the free/pro/promax enumeration
resolves to the same limit as a missing plan value, i.e. the configured
default plan (DEFAULT_PLAN is lowercased by the code, which the hypothesis hd
records). -/
theorem C1_quota_admission (L : PlanLimits) (enableHeader : Bool) (defaultPlan : String)
    (hp : Option String) (yyyy mm dd uuid filename contentType : String)
    (size ttl : Nat) (sign : String → String → String)
    (partSizeReq : Option Nat) (defaultPartSize : Nat)
    (storageCreate : String → Except S3Err String) (uid : String)
    (hd : jsToLower defaultPlan = defaultPlan)
    (hf : filename ≠ "") (hs0 : size ≠ 0) (hsmax : size ≤ 400 * 1024 * 1024 * 1024)
    (hct : contentType ≠ "") (hps : partSizeReq ≠ some 0)
    (hsc : storageCreate (safeKeyFrom yyyy mm dd uuid filename) = .ok uid) :
    ((∃ r, presignHandler L enableHeader defaultPlan hp yyyy mm dd uuid filename size
        contentType ttl sign = .ok r)
      ↔ size ≤ getPlanLimit L enableHeader defaultPlan hp)
  ∧ ((∃ r, multipartCreateHandler true L enableHeader defaultPlan hp yyyy mm dd uuid filename
        size partSizeReq defaultPartSize storageCreate = .ok r)
      ↔ size ≤ getPlanLimit L enableHeader defaultPlan hp)
  ∧ (∀ p : String, planNames.contains (jsToLower p) = false →
      getPlanLimit L enableHeader defaultPlan (some p)
        = getPlanLimit L enableHeader defaultPlan none) := by
  refine ⟨?_, ?_, ?_⟩
  · unfold presignHandler
    rw [if_neg (by push_neg; exact ⟨hf, hs0, by omega, hct⟩)]
    by_cases hle : size ≤ getPlanLimit L enableHeader defaultPlan hp
    · rw [if_neg (by omega)]
      exact ⟨fun _ => hle, fun _ => ⟨_, rfl⟩⟩
    · rw [if_pos (by omega)]
      constructor
      · rintro ⟨r, h⟩
        cases h
      · intro h
        exact absurd h hle
  · unfold multipartCreateHandler
    rw [if_neg (by simp), if_neg (by push_neg; exact ⟨hf, hs0, by omega, hps⟩)]
    by_cases hle : size ≤ getPlanLimit L enableHeader defaultPlan hp
    · rw [if_neg (by omega), hsc]
      exact ⟨fun _ => hle, fun _ => ⟨_, rfl⟩⟩
    · rw [if_pos (by omega)]
      constructor
      · rintro ⟨r, h⟩
        cases h
      · intro h
        exact absurd h hle
  · intro p hcp
    cases enableHeader with
    | false => rfl
    | true =>
      by_cases hp0 : p = ""
      · subst hp0
        simp [getPlanLimit, getPlanFromReq, requestPlanString, hd]
      · have hcp' : jsToLower p ∉ planNames := by simpa using hcp
        simp [getPlanLimit, getPlanFromReq, requestPlanString, hp0, hcp', hd]

/-- C1 witness: concrete limits 4/200/300, default plan pro, an unknown plan
value gold on a 250-byte request. -/
theorem C1_quota_admission_witness :
    ((∃ r, presignHandler ⟨4, 200, 300⟩ true "pro" (some "gold") "2025" "10" "11" "u1"
        "a.txt" 250 "text/plain" 900 exSign = .ok r)
      ↔ 250 ≤ getPlanLimit ⟨4, 200, 300⟩ true "pro" (some "gold"))
  ∧ ((∃ r, multipartCreateHandler true ⟨4, 200, 300⟩ true "pro" (some "gold") "2025" "10" "11"
        "u1" "a.txt" 250 (some 16) 8 exStorageCreate = .ok r)
      ↔ 250 ≤ getPlanLimit ⟨4, 200, 300⟩ true "pro" (some "gold"))
  ∧ (∀ p : String, planNames.contains (jsToLower p) = false →
      getPlanLimit ⟨4, 200, 300⟩ true "pro" (some p)
        = getPlanLimit ⟨4, 200, 300⟩ true "pro" none) :=
  C1_quota_admission ⟨4, 200, 300⟩ true "pro" (some "gold") "2025" "10" "11" "u1" "a.txt"
    "text/plain" 250 900 exSign (some 16) 8 exStorageCreate "UP-1"
    (by decide) (by decide) (by decide) (by decide) (by decide) (by decide) rfl

/-! ## C4 -/

/-- C4: for every multipart session (non-empty uploadId and key, multipart
enabled) and every storage-side state — including a state where the upload is
already absent because it was aborted before or never opened — the abort
endpoint answers ok, and aborting twice in a row answers ok both times.  The
storage abort call is the one modelled from the spec boundary (section 6),
which has no failure mode. -/
theorem C4_abort_never_errors (uploadId key : String) (openUploads : List String)
    (hu : uploadId ≠ "") (hk : key ≠ "") :
    (multipartAbortHandler true uploadId key openUploads).1 = .ok true
  ∧ (multipartAbortHandler true uploadId key
      (multipartAbortHandler true uploadId key openUploads).2).1 = .ok true
  ∧ (uploadId ∉ openUploads → (multipartAbortHandler true uploadId key openUploads).1 = .ok true) := by
  have hgen : ∀ s : List String, (multipartAbortHandler true uploadId key s).1 = .ok true := by
    intro s
    simp [multipartAbortHandler, hu, hk]
  exact ⟨hgen _, hgen _, fun _ => hgen _⟩

/-- C4 witness: aborting session U-9 against an empty storage state (the
session is absent), twice in a row. -/
theorem C4_abort_never_errors_witness :
    (multipartAbortHandler true "U-9" "uploads/k" []).1 = .ok true
  ∧ (multipartAbortHandler true "U-9" "uploads/k"
      (multipartAbortHandler true "U-9" "uploads/k" []).2).1 = .ok true
  ∧ ("U-9" ∉ ([] : List String) → (multipartAbortHandler true "U-9" "uploads/k" []).1 = .ok true) :=
  C4_abort_never_errors "U-9" "uploads/k" [] (by decide) (by decide)

/-! ## C6 -/

/-- C6: a bundle request whose manifest parses to an empty member list is
answered with the 400 client error, produced while res.headersSent is still
false — before any header or archive byte (the clientError constructor of
BundleResult is only reachable before the header-setting step of the
handler). -/
theorem C6_empty_manifest_400 (objects : String → Option String) (man : BManifest)
    (h : man.items = []) :
    bundleHandler objects (some man) = .clientError 400 "Manifiesto vacio" := by
  have hb : bundleHandler objects (some man)
      = if man.items.length = 0 then .clientError 400 "Manifiesto vacio"
        else .archive (String.mk (sanitize (bundleZipName man).data))
          (bundleMembers objects man.items).1 (bundleMembers objects man.items).2 := rfl
  rw [hb, h]
  rfl

/-- C6 witness: the empty manifest against the c3Objects bucket. -/
theorem C6_empty_manifest_400_witness :
    bundleHandler c3Objects (some { name := some "z.zip", items := [] })
      = .clientError 400 "Manifiesto vacio" :=
  C6_empty_manifest_400 c3Objects { name := some "z.zip", items := [] } rfl

/-! ## C9 -/

/-- C9: with multipart enabled, the part-url endpoint issues a signed URL
exactly when uploadId and key are non-empty and partNumber is an integer with
1 ≤ partNumber ≤ 10000; for any partNumber outside that range the request is
rejected 400 by schema validation before the storage signer is consulted —
the response is the same for every signer. -/
theorem C9_part_url_range (uploadId key : String) (partNumber : Int)
    (sign sign2 : String → String → Int → String) :
    ((∃ u, multipartPartUrlHandler true uploadId key partNumber sign = .url u)
      ↔ (uploadId ≠ "" ∧ key ≠ "" ∧ 1 ≤ partNumber ∧ partNumber ≤ 10000))
  ∧ (¬ (1 ≤ partNumber ∧ partNumber ≤ 10000) →
      multipartPartUrlHandler true uploadId key partNumber sign
        = multipartPartUrlHandler true uploadId key partNumber sign2
      ∧ multipartPartUrlHandler true uploadId key partNumber sign = .err 400 "invalid body") := by
  constructor
  · unfold multipartPartUrlHandler
    rw [if_neg (by simp)]
    by_cases hv : uploadId = "" ∨ key = "" ∨ partNumber < 1 ∨ 10000 < partNumber
    · rw [if_pos hv]
      constructor
      · rintro ⟨u, h⟩
        cases h
      · rintro ⟨h1, h2, h3, h4⟩
        rcases hv with h | h | h | h
        · exact absurd h h1
        · exact absurd h h2
        · omega
        · omega
    · rw [if_neg hv]
      push_neg at hv
      exact ⟨fun _ => ⟨hv.1, hv.2.1, by omega, by omega⟩, fun _ => ⟨_, rfl⟩⟩
  · intro hout
    have hv : uploadId = "" ∨ key = "" ∨ partNumber < 1 ∨ 10000 < partNumber := by omega
    have h1 : ∀ s : String → String → Int → String,
        multipartPartUrlHandler true uploadId key partNumber s = .err 400 "invalid body" := by
      intro s
      unfold multipartPartUrlHandler
      rw [if_neg (by simp), if_pos hv]
    exact ⟨(h1 sign).trans (h1 sign2).symm, h1 sign⟩

/-- C9 witness: partNumber 10001 is rejected identically under two different
signers, while the range facts are decided at partNumber 3. -/
theorem C9_part_url_range_witness :
    (((∃ u, multipartPartUrlHandler true "U-1" "uploads/k" 10001 exPartSign = .url u)
      ↔ ("U-1" ≠ "" ∧ "uploads/k" ≠ "" ∧ (1 : Int) ≤ 10001 ∧ (10001 : Int) ≤ 10000))
    ∧ (¬ ((1 : Int) ≤ 10001 ∧ (10001 : Int) ≤ 10000) →
        multipartPartUrlHandler true "U-1" "uploads/k" 10001 exPartSign
          = multipartPartUrlHandler true "U-1" "uploads/k" 10001 exPartSign2
        ∧ multipartPartUrlHandler true "U-1" "uploads/k" 10001 exPartSign
          = .err 400 "invalid body"))
  ∧ multipartPartUrlHandler true "U-1" "uploads/k" 10001 exPartSign = .err 400 "invalid body" :=
  ⟨C9_part_url_range "U-1" "uploads/k" 10001 exPartSign exPartSign2,
   ((C9_part_url_range "U-1" "uploads/k" 10001 exPartSign exPartSign2).2 (by omega)).2⟩

/-! ## C7 -/

/-- C7: on a schema-valid multipart create request, the handler returns, as
clientUploadId, exactly the UploadId the storage createMultipartUpload call
produced (verbatim pass-through, no indirection table: the response is built
directly from the storage value); the request fails with 400 when the quota
check denies the declared size, and fails with 400 when storage rejects the
initiation. -/
theorem C7_create_passthrough (L : PlanLimits) (enableHeader : Bool) (defaultPlan : String)
    (hp : Option String) (yyyy mm dd uuid filename : String) (size : Nat)
    (partSizeReq : Option Nat) (defaultPartSize : Nat)
    (storageCreate : String → Except S3Err String)
    (hf : filename ≠ "") (hs0 : size ≠ 0)
    (hsmax : size ≤ 5 * 1024 * 1024 * 1024 * 1024) (hps : partSizeReq ≠ some 0) :
    (∀ uid, storageCreate (safeKeyFrom yyyy mm dd uuid filename) = .ok uid →
      size ≤ getPlanLimit L enableHeader defaultPlan hp →
      multipartCreateHandler true L enableHeader defaultPlan hp yyyy mm dd uuid filename size
        partSizeReq defaultPartSize storageCreate
        = .ok ⟨uid, safeKeyFrom yyyy mm dd uuid filename, mpPartSizeOf partSizeReq defaultPartSize⟩)
  ∧ (getPlanLimit L enableHeader defaultPlan hp < size →
      multipartCreateHandler true L enableHeader defaultPlan hp yyyy mm dd uuid filename size
        partSizeReq defaultPartSize storageCreate
        = .err 400 "Archivo excede el limite del plan")
  ∧ (∀ e, storageCreate (safeKeyFrom yyyy mm dd uuid filename) = .error e →
      size ≤ getPlanLimit L enableHeader defaultPlan hp →
      multipartCreateHandler true L enableHeader defaultPlan hp yyyy mm dd uuid filename size
        partSizeReq defaultPartSize storageCreate
        = .err 400 (s3ErrString e)) := by
  refine ⟨?_, ?_, ?_⟩
  · intro uid hsc hle
    unfold multipartCreateHandler
    rw [if_neg (by simp), if_neg (by push_neg; exact ⟨hf, hs0, by omega, hps⟩),
      if_neg (by omega), hsc]
  · intro hgt
    unfold multipartCreateHandler
    rw [if_neg (by simp), if_neg (by push_neg; exact ⟨hf, hs0, by omega, hps⟩),
      if_pos (by omega)]
  · intro e hsc hle
    unfold multipartCreateHandler
    rw [if_neg (by simp), if_neg (by push_neg; exact ⟨hf, hs0, by omega, hps⟩),
      if_neg (by omega), hsc]

/-- C7 witness: a 100-byte create under the free plan against a storage that
opens upload UP-1; the response carries UP-1 verbatim. -/
theorem C7_create_passthrough_witness :
    multipartCreateHandler true ⟨4000, 200000, 300000⟩ true "free" none "2025" "10" "11" "u1"
      "informe final.pdf" 100 none 16 exStorageCreate
      = .ok ⟨"UP-1", safeKeyFrom "2025" "10" "11" "u1" "informe final.pdf", 16⟩ :=
  (C7_create_passthrough ⟨4000, 200000, 300000⟩ true "free" none "2025" "10" "11" "u1"
    "informe final.pdf" 100 none 16 exStorageCreate
    (by decide) (by decide) (by decide) (by decide)).1 "UP-1" rfl (by decide)

/-! ## Helper for C8 -/

/-- The field-by-field rebuild of a part list is the identity. -/
theorem mpParts_map_id (parts : List MpPart) :
    parts.map (fun p => (⟨p.ETag, p.PartNumber⟩ : MpPart)) = parts := by
  induction parts with
  | nil => rfl
  | cons p ps ih => simp [ih]

/-! ## C8 -/

/-- C8: on a schema-valid completion request, the coordinator forwards to the
storage completion primitive exactly the supplied pairs (the rebuild map is
the identity), performs no further verification of contiguity or tags of its
own, and the request succeeds exactly when storage accepts the completion. -/
theorem C8_complete_forwards (uploadId key : String) (parts : List MpPart)
    (storageComplete : String → String → List MpPart → Except S3Err (Option String))
    (hu : uploadId ≠ "") (hk : key ≠ "") (hne : parts ≠ [])
    (hpv : ∀ p ∈ parts, p.ETag ≠ "" ∧ 1 ≤ p.PartNumber ∧ p.PartNumber ≤ 10000) :
    parts.map (fun p => (⟨p.ETag, p.PartNumber⟩ : MpPart)) = parts
  ∧ (∀ loc, storageComplete uploadId key parts = .ok loc →
      multipartCompleteHandler true uploadId key parts storageComplete = .ok ⟨key, loc⟩)
  ∧ (∀ e, storageComplete uploadId key parts = .error e →
      multipartCompleteHandler true uploadId key parts storageComplete = .err 400 (s3ErrString e))
  ∧ ((∃ r, multipartCompleteHandler true uploadId key parts storageComplete = .ok r)
      ↔ ∃ loc, storageComplete uploadId key parts = .ok loc) := by
  have hred : multipartCompleteHandler true uploadId key parts storageComplete
      = match storageComplete uploadId key parts with
        | .ok loc => .ok ⟨key, loc⟩
        | .error e => .err 400 (s3ErrString e) := by
    unfold multipartCompleteHandler
    rw [if_neg (by simp), if_neg (by push_neg; exact ⟨hu, hk, hne, hpv⟩), mpParts_map_id]
  refine ⟨mpParts_map_id parts, ?_, ?_, ?_⟩
  · intro loc hsc
    rw [hred, hsc]
  · intro e hsc
    rw [hred, hsc]
  · rw [hred]
    cases hsc : storageComplete uploadId key parts with
    | ok loc => exact ⟨fun _ => ⟨loc, rfl⟩, fun _ => ⟨_, rfl⟩⟩
    | error e =>
      constructor
      · rintro ⟨r, h⟩
        cases h
      · rintro ⟨loc, h⟩
        cases h

/-- C8 witness: a non-contiguous two-part list that storage accepts completes
with the accepted location (the coordinator added no contiguity check). -/
theorem C8_complete_forwards_witness :
    multipartCompleteHandler true "U-1" "uploads/k" [⟨"e1", 1⟩, ⟨"e2", 7⟩] exStorageComplete
      = .ok ⟨"uploads/k", some "loc-1"⟩ :=
  (C8_complete_forwards "U-1" "uploads/k" [⟨"e1", 1⟩, ⟨"e2", 7⟩] exStorageComplete
    (by decide) (by decide) (by decide) (by decide)).2.1 (some "loc-1") rfl

/-! ## C3 -/

/-- C3 counterexample: against the /api/bundle endpoint of server_bundle.js
(a cited source of the claim), a 2-member manifest whose first object exists
and whose second is absent streams exactly the first member but the response
does NOT complete successfully — the GetObject failure aborts the archive, it
is not skipped. -/
theorem C3_bundle_missing_member_cex :
    bundleHandler c3Objects (some c3Manifest)
      = .archive "combo.zip" [("f1.png", "AAA")] false
  ∧ bundleHandler c3Objects (some c3Manifest)
      ≠ .archive "combo.zip" [("f1.png", "AAA")] true := by
  constructor
  · decide
  · decide

/-- C3 amended: the skip semantics holds for the download.zip endpoint of
server.js — a member found absent during streaming is skipped via its head
check and the archive completes with exactly the present member — while in
the /api/bundle endpoint of server_bundle.js an absent second member aborts
the stream after the first member, and the response does not complete. -/
theorem C3_zip_skip_missing_member (st : Store) (now : Nat) (id : String) (man : TManifest)
    (f1 f2 : TFile) (b1 : String)
    (objects : String → Option String) (bman : BManifest) (i1 i2 : BItem) (body1 : String)
    (hman : st.manifests (manifestKey id) = some man)
    (hfiles : man.files = [f1, f2])
    (hexp : ¬ man.expiresAt < now)
    (h1 : st.objects (zipKey id f1.name) = some b1)
    (h2 : st.objects (zipKey id f2.name) = none)
    (hitems : bman.items = [i1, i2])
    (hb1 : objects i1.key = some body1)
    (hb2 : objects i2.key = none) :
    downloadZipHandler st now id = .archive [(f1.name, b1)] true
  ∧ bundleHandler objects (some bman)
      = .archive (String.mk (sanitize (bundleZipName bman).data)) [(memberName i1, body1)] false := by
  constructor
  · simp [downloadZipHandler, hman, hexp, hfiles, zipMembers, h1, h2]
  · simp [bundleHandler, hitems, bundleMembers, hb1, hb2]

/-- C3 witness for the amended claim, at the concrete t1 transfer and the
concrete two-member bundle manifest. -/
theorem C3_zip_skip_missing_member_witness :
    downloadZipHandler exStore 500 "t1" = .archive [("one.txt", "ONE")] true
  ∧ bundleHandler c3Objects (some c3Manifest)
      = .archive (String.mk (sanitize (bundleZipName c3Manifest).data))
          [(memberName c3Item1, "AAA")] false :=
  C3_zip_skip_missing_member exStore 500 "t1" exManifestT1 exFile1 exFile2 "ONE"
    c3Objects c3Manifest c3Item1 c3Item2 "AAA"
    (by decide) rfl (by decide) (by decide) (by decide) rfl (by decide) (by decide)

/-! ## C5 -/

/-- C5 counterexample: a storage error with an unrecognized code falls through
mapS3Error as a 500 whose body carries the provider code and message verbatim,
and the v3 multipart handlers answer 400 with the stringified provider error —
the closed-taxonomy claim fails. -/
theorem C5_taxonomy_leak_cex :
    mapS3Error "mixtli" ⟨"SlowDown", "Reduce your request rate."⟩
      = (500, ErrBody.s3Error "SlowDown" "Reduce your request rate.")
  ∧ multipartCompleteHandler true "U-1" "uploads/k" [⟨"e1", 1⟩]
      (fun _ _ _ => .error ⟨"NoSuchUpload", "The specified upload does not exist."⟩)
      = .err 400 "NoSuchUpload: The specified upload does not exist." := by
  constructor
  · decide
  · decide

/-- C5 amended: mapS3Error translates the recognized storage error codes
(credential, signature, permission and bucket errors) into the closed 401/403/
404 taxonomy without the provider fields, but every other storage error is
returned as a 500 s3_error carrying the provider code and message verbatim
(and the v3 handlers return the stringified error directly). -/
theorem C5_error_mapping (bucket : String) (e : S3Err) :
    (recognizedS3Code e.code = true →
        ((mapS3Error bucket e).1 = 401 ∨ (mapS3Error bucket e).1 = 403
          ∨ (mapS3Error bucket e).1 = 404)
      ∧ (mapS3Error bucket e).2.inTaxonomy = true)
  ∧ (recognizedS3Code e.code = false →
      mapS3Error bucket e = (500, .s3Error e.code e.message)) := by
  constructor
  · intro hrec
    simp only [recognizedS3Code, Bool.or_eq_true, beq_iff_eq] at hrec
    rcases hrec with ((((((h | h) | h) | h) | h) | h) | h) <;>
      simp [mapS3Error, ErrBody.inTaxonomy, h]
  · intro hrec
    simp only [recognizedS3Code, Bool.or_eq_false_iff, beq_eq_false_iff_ne, ne_eq] at hrec
    obtain ⟨⟨⟨⟨⟨⟨h1, h2⟩, h3⟩, h4⟩, h5⟩, h6⟩, h7⟩ := hrec
    simp [mapS3Error, h1, h2, h3, h4, h5, h6, h7]

/-- C5 witness for the amended claim: Forbidden maps into the taxonomy,
SlowDown falls through verbatim. -/
theorem C5_error_mapping_witness :
    (((mapS3Error "mixtli" ⟨"Forbidden", "boom"⟩).1 = 401
        ∨ (mapS3Error "mixtli" ⟨"Forbidden", "boom"⟩).1 = 403
        ∨ (mapS3Error "mixtli" ⟨"Forbidden", "boom"⟩).1 = 404)
      ∧ (mapS3Error "mixtli" ⟨"Forbidden", "boom"⟩).2.inTaxonomy = true)
  ∧ mapS3Error "mixtli" ⟨"SlowDown", "boom"⟩ = (500, .s3Error "SlowDown" "boom") :=
  ⟨(C5_error_mapping "mixtli" ⟨"Forbidden", "boom"⟩).1 (by decide),
   (C5_error_mapping "mixtli" ⟨"SlowDown", "boom"⟩).2 (by decide)⟩

/-! ## C10 -/

/-- C10: for a stored transfer whose manifest has expiresAt strictly in the
past, the manifest endpoint, the single-file endpoint and the zip endpoint
all answer HTTP 410; with expiresAt in the future, the manifest endpoint
serves the manifest, the zip endpoint streams and completes the archive, and
the file endpoint streams a present object body. -/
theorem C10_expiry_410 (st : Store) (now : Nat) (id name body : String) (man : TManifest)
    (hman : st.manifests (manifestKey id) = some man) :
    (man.expiresAt < now →
        (getTransferHandler st now id).httpStatus = 410
      ∧ (getFileHandler st now id name).httpStatus = 410
      ∧ (downloadZipHandler st now id).httpStatus = 410)
  ∧ (now < man.expiresAt →
        getTransferHandler st now id = .ok man
      ∧ downloadZipHandler st now id = .archive (zipMembers st id man.files) true
      ∧ (st.objects (zipKey id name) = some body →
          getFileHandler st now id name = .stream body)) := by
  constructor
  · intro hlt
    refine ⟨?_, ?_, ?_⟩
    · simp [getTransferHandler, hman, hlt, ManResult.httpStatus]
    · simp [getFileHandler, hman, hlt, FileResult.httpStatus]
    · simp [downloadZipHandler, hman, hlt, ZipResult.httpStatus]
  · intro hgt
    have hnlt : ¬ man.expiresAt < now := by omega
    refine ⟨?_, ?_, ?_⟩
    · simp [getTransferHandler, hman, hnlt]
    · simp [downloadZipHandler, hman, hnlt]
    · intro hobj
      simp [getFileHandler, hman, hnlt, hobj]

/-- C10 witness: transfer t1 (expiry instant 1000) is answered 410 by all
three endpoints at instant 2000 and served by all three at instant 500. -/
theorem C10_expiry_410_witness :
    ((getTransferHandler exStore 2000 "t1").httpStatus = 410
      ∧ (getFileHandler exStore 2000 "t1" "one.txt").httpStatus = 410
      ∧ (downloadZipHandler exStore 2000 "t1").httpStatus = 410)
  ∧ (getTransferHandler exStore 500 "t1" = .ok exManifestT1
      ∧ downloadZipHandler exStore 500 "t1"
          = .archive (zipMembers exStore "t1" exManifestT1.files) true
      ∧ getFileHandler exStore 500 "t1" "one.txt" = .stream "ONE") :=
  ⟨(C10_expiry_410 exStore 2000 "t1" "one.txt" "ONE" exManifestT1 (by decide)).1 (by decide),
   ⟨((C10_expiry_410 exStore 500 "t1" "one.txt" "ONE" exManifestT1 (by decide)).2 (by decide)).1,
    ((C10_expiry_410 exStore 500 "t1" "one.txt" "ONE" exManifestT1 (by decide)).2 (by decide)).2.1,
    ((C10_expiry_410 exStore 500 "t1" "one.txt" "ONE" exManifestT1 (by decide)).2 (by decide)).2.2
      (by decide)⟩⟩

end Mixtli
